import Mathlib

/-!
# Verification of the Triton AI orchestration subsystem

Shallow embedding, in Lean 4, of the query-orchestration core of the Triton
repository: the routing policy, health monitor, cache service and query
orchestrator found in `backend/services/aiOrchestrator.js`,
`backend/services/cacheService.js` and `backend/config/aiConfig.js`.

JavaScript values that flow through the orchestrator (context objects, cached
payloads) are modelled by a small JSON datatype `Json`; `JSON.stringify` /
`JSON.parse` are implemented as executable Lean functions, and the MD5 hash
used by `_generateQueryId` is implemented in full (RFC 1321) over `Nat`
arithmetic modulo `2^32`.
-/

namespace Triton

/-- JSON values, modelling the plain-data JavaScript values handled by the
orchestrator (JS numbers are restricted to integers, which covers every value
the orchestrator produces itself: `Date.now()` timestamps and user fields). -/
inductive Json where
  | null : Json
  | bool : Bool → Json
  | num : Int → Json
  | str : String → Json
  | arr : List Json → Json
  | obj : List (String × Json) → Json
deriving Repr

/-- JavaScript truthiness of a `Json` value (`undefined`/absent is handled at
use sites via `Option`). -/
def jsTruthy : Json → Bool
  | .null => false
  | .bool b => b
  | .num n => n ≠ 0
  | .str s => s ≠ ""
  | .arr _ => true
  | .obj _ => true

/-- Property lookup on a JSON object (first occurrence), `none` = `undefined`. -/
def jsonLookup (j : Json) (k : String) : Option Json :=
  match j with
  | .obj kvs => kvs.lookup k
  | _ => none

/-- `delete o[k]`: removes the key from an object, no-op on non-objects. -/
def jsonDelete (j : Json) (k : String) : Json :=
  match j with
  | .obj kvs => .obj (kvs.filter (fun kv => kv.1 != k))
  | _ => j

/-- Hex digit for a value `< 16`, lowercase as Node's `digest('hex')`. -/
def hexDigit (n : Nat) : Char :=
  if n < 10 then Char.ofNat (48 + n) else Char.ofNat (87 + n)

/-- Two-digit lowercase hex of a byte. -/
def byteToHex (b : Nat) : String :=
  String.mk [hexDigit (b / 16 % 16), hexDigit (b % 16)]

/-- JSON string-literal escaping as performed by `JSON.stringify`. -/
def escapeChar (c : Char) : String :=
  if c = '"' then "\\\""
  else if c = '\\' then "\\\\"
  else if c = '\n' then "\\n"
  else if c = '\r' then "\\r"
  else if c = '\t' then "\\t"
  else if c = (Char.ofNat 8) then "\\b"
  else if c = (Char.ofNat 12) then "\\f"
  else if c.toNat < 32 then
    "\\u00" ++ String.mk [hexDigit (c.toNat / 16), hexDigit (c.toNat % 16)]
  else String.singleton c

/-- A JSON string literal: quotes plus escaping. -/
def quoteString (s : String) : String :=
  "\"" ++ String.join (s.toList.map escapeChar) ++ "\""

mutual
/-- `JSON.stringify` (no spacing, insertion order preserved), as Node emits it. -/
def jsonStringify : Json → String
  | .null => "null"
  | .bool true => "true"
  | .bool false => "false"
  | .num n => toString n
  | .str s => quoteString s
  | .arr xs => "[" ++ stringifyArr xs ++ "]"
  | .obj kvs => "\x7b" ++ stringifyObj kvs ++ "\x7d"

def stringifyArr : List Json → String
  | [] => ""
  | [x] => jsonStringify x
  | x :: xs => jsonStringify x ++ "," ++ stringifyArr xs

def stringifyObj : List (String × Json) → String
  | [] => ""
  | [(k, v)] => quoteString k ++ ":" ++ jsonStringify v
  | (k, v) :: kvs => quoteString k ++ ":" ++ jsonStringify v ++ "," ++ stringifyObj kvs
end

/-! ## MD5 (RFC 1321), over `Nat` arithmetic modulo `2^32`

`_generateQueryId` computes `crypto.createHash('md5').update(str).digest('hex')`
on the UTF-8 bytes of the serialized data. -/

/-- UTF-8 encoding of one Unicode code point, as a list of byte values. -/
def utf8Encode (n : Nat) : List Nat :=
  if n < 0x80 then [n]
  else if n < 0x800 then [0xC0 + n / 64, 0x80 + n % 64]
  else if n < 0x10000 then [0xE0 + n / 4096, 0x80 + n / 64 % 64, 0x80 + n % 64]
  else [0xF0 + n / 262144, 0x80 + n / 4096 % 64, 0x80 + n / 64 % 64, 0x80 + n % 64]

/-- UTF-8 bytes of a string. -/
def strBytes (s : String) : List Nat :=
  (s.toList.map (fun c => utf8Encode c.toNat)).flatten

/-- 32-bit truncation. -/
def m32 (n : Nat) : Nat := n % 4294967296

/-- 32-bit left-rotate. -/
def rotl32 (x s : Nat) : Nat :=
  m32 (x * 2 ^ s) + x / 2 ^ (32 - s)

/-- Bitwise complement within 32 bits. -/
def not32 (x : Nat) : Nat := 4294967295 - x

/-- The 64 MD5 sine-derived constants `K[i] = ⌊|sin(i+1)|·2³²⌋`. -/
def md5K : Array Nat := #[
  0xd76aa478, 0xe8c7b756, 0x242070db, 0xc1bdceee,
  0xf57c0faf, 0x4787c62a, 0xa8304613, 0xfd469501,
  0x698098d8, 0x8b44f7af, 0xffff5bb1, 0x895cd7be,
  0x6b901122, 0xfd987193, 0xa679438e, 0x49b40821,
  0xf61e2562, 0xc040b340, 0x265e5a51, 0xe9b6c7aa,
  0xd62f105d, 0x02441453, 0xd8a1e681, 0xe7d3fbc8,
  0x21e1cde6, 0xc33707d6, 0xf4d50d87, 0x455a14ed,
  0xa9e3e905, 0xfcefa3f8, 0x676f02d9, 0x8d2a4c8a,
  0xfffa3942, 0x8771f681, 0x6d9d6122, 0xfde5380c,
  0xa4beea44, 0x4bdecfa9, 0xf6bb4b60, 0xbebfbc70,
  0x289b7ec6, 0xeaa127fa, 0xd4ef3085, 0x04881d05,
  0xd9d4d039, 0xe6db99e5, 0x1fa27cf8, 0xc4ac5665,
  0xf4292244, 0x432aff97, 0xab9423a7, 0xfc93a039,
  0x655b59c3, 0x8f0ccc92, 0xffeff47d, 0x85845dd1,
  0x6fa87e4f, 0xfe2ce6e0, 0xa3014314, 0x4e0811a1,
  0xf7537e82, 0xbd3af235, 0x2ad7d2bb, 0xeb86d391]

/-- The MD5 per-round left-rotate amounts. -/
def md5S : Array Nat := #[
  7, 12, 17, 22, 7, 12, 17, 22, 7, 12, 17, 22, 7, 12, 17, 22,
  5, 9, 14, 20, 5, 9, 14, 20, 5, 9, 14, 20, 5, 9, 14, 20,
  4, 11, 16, 23, 4, 11, 16, 23, 4, 11, 16, 23, 4, 11, 16, 23,
  6, 10, 15, 21, 6, 10, 15, 21, 6, 10, 15, 21, 6, 10, 15, 21]

/-- MD5 padding: append `0x80`, zero-pad to 56 mod 64, append the 64-bit
little-endian bit length. -/
def md5Pad (msg : List Nat) : List Nat :=
  let len := msg.length
  let padLen := (55 + 64 - len % 64) % 64 + 1
  let bitLen := len * 8
  msg ++ (0x80 :: List.replicate (padLen - 1) 0) ++
    (List.range 8).map (fun i => bitLen / 2 ^ (8 * i) % 256)

/-- Split the padded message into 16-word (little-endian) blocks. -/
def md5Words (block : List Nat) : Array Nat :=
  (Array.range 16).map (fun i =>
    (block.getD (4 * i) 0) + (block.getD (4 * i + 1) 0) * 256 +
    (block.getD (4 * i + 2) 0) * 65536 + (block.getD (4 * i + 3) 0) * 16777216)

/-- One MD5 round `i` on state `(a,b,c,d)` with message words `m`. -/
def md5Round (m : Array Nat) (st : Nat × Nat × Nat × Nat) (i : Nat) :
    Nat × Nat × Nat × Nat :=
  let (a, b, c, d) := st
  let f :=
    if i < 16 then Nat.lor (Nat.land b c) (Nat.land (not32 b) d)
    else if i < 32 then Nat.lor (Nat.land d b) (Nat.land (not32 d) c)
    else if i < 48 then Nat.xor b (Nat.xor c d)
    else Nat.xor c (Nat.lor b (not32 d))
  let g :=
    if i < 16 then i
    else if i < 32 then (5 * i + 1) % 16
    else if i < 48 then (3 * i + 5) % 16
    else (7 * i) % 16
  let tmp := m32 (a + f + md5K.getD i 0 + m.getD g 0)
  (d, m32 (b + rotl32 tmp (md5S.getD i 0)), b, c)

/-- Process one 64-byte block, updating the running state. -/
def md5Block (st : Nat × Nat × Nat × Nat) (block : List Nat) :
    Nat × Nat × Nat × Nat :=
  let m := md5Words block
  let (a, b, c, d) := (List.range 64).foldl (md5Round m) st
  let (a0, b0, c0, d0) := st
  (m32 (a0 + a), m32 (b0 + b), m32 (c0 + c), m32 (d0 + d))

/-- Chop a list into 64-byte chunks (structural recursion on a fuel bounded
by the list length, so that the kernel can evaluate it). -/
def chunks64Go : Nat → List Nat → List (List Nat)
  | _, [] => []
  | 0, l => [l]
  | fuel + 1, x :: xs => (x :: xs).take 64 :: chunks64Go fuel ((x :: xs).drop 64)

/-- Chop a list into 64-byte chunks. -/
def chunks64 (l : List Nat) : List (List Nat) := chunks64Go l.length l

/-- Little-endian hex rendering of one 32-bit state word. -/
def word32Hex (w : Nat) : String :=
  byteToHex (w % 256) ++ byteToHex (w / 256 % 256) ++
  byteToHex (w / 65536 % 256) ++ byteToHex (w / 16777216 % 256)

/-- Full MD5: UTF-8 bytes of `s` to lowercase hex digest, exactly
`crypto.createHash('md5').update(s).digest('hex')`. -/
def md5Hex (s : String) : String :=
  let blocks := chunks64 (md5Pad (strBytes s))
  let (a, b, c, d) :=
    blocks.foldl md5Block (0x67452301, 0xefcdab89, 0x98badcfe, 0x10325476)
  word32Hex a ++ word32Hex b ++ word32Hex c ++ word32Hex d

/-! ## `JSON.parse`

A recursive-descent parser over `List Char`, structurally recursive on a fuel
argument so the kernel can evaluate it.  `JSON.parse` throwing on malformed
input is modelled by returning `none`.  Number literals are parsed as
integers, matching the restriction of `Json` (all numbers the orchestrator
produces are integers). -/

/-- Whitespace accepted by `JSON.parse` between tokens. -/
def isJsonWs (c : Char) : Bool :=
  c = ' ' || c = '\t' || c = '\n' || c = '\r'

/-- Skip leading whitespace. -/
def skipWs : List Char → List Char
  | [] => []
  | c :: cs => if isJsonWs c then skipWs cs else c :: cs

/-- Value of a hex digit, `none` if not a hex digit. -/
def hexVal (c : Char) : Option Nat :=
  if '0' ≤ c ∧ c ≤ '9' then some (c.toNat - 48)
  else if 'a' ≤ c ∧ c ≤ 'f' then some (c.toNat - 87)
  else if 'A' ≤ c ∧ c ≤ 'F' then some (c.toNat - 55)
  else none

/-- Parse the body of a JSON string literal (after the opening quote),
returning the decoded characters and the rest of the input. -/
def parseStrChars : Nat → List Char → Option (List Char × List Char)
  | 0, _ => none
  | _, [] => none
  | fuel + 1, c :: cs =>
    if c = '"' then some ([], cs)
    else if c = '\\' then
      match cs with
      | [] => none
      | e :: cs₂ =>
        let dec : Option (Char × List Char) :=
          if e = '"' then some ('"', cs₂)
          else if e = '\\' then some ('\\', cs₂)
          else if e = '/' then some ('/', cs₂)
          else if e = 'n' then some ('\n', cs₂)
          else if e = 'r' then some ('\r', cs₂)
          else if e = 't' then some ('\t', cs₂)
          else if e = 'b' then some (Char.ofNat 8, cs₂)
          else if e = 'f' then some (Char.ofNat 12, cs₂)
          else if e = 'u' then
            match cs₂ with
            | h1 :: h2 :: h3 :: h4 :: rest =>
              match hexVal h1, hexVal h2, hexVal h3, hexVal h4 with
              | some v1, some v2, some v3, some v4 =>
                some (Char.ofNat (v1 * 4096 + v2 * 256 + v3 * 16 + v4), rest)
              | _, _, _, _ => none
            | _ => none
          else none
        match dec with
        | some (ch, rest) =>
          match parseStrChars fuel rest with
          | some (l, r) => some (ch :: l, r)
          | none => none
        | none => none
    else
      match parseStrChars fuel cs with
      | some (l, r) => some (c :: l, r)
      | none => none

/-- Parse a (possibly empty) run of decimal digits into an accumulator. -/
def parseDigits : List Char → Nat → Nat × List Char
  | [], acc => (acc, [])
  | c :: cs, acc =>
    if c.isDigit then parseDigits cs (acc * 10 + (c.toNat - 48)) else (acc, c :: cs)

/-- Parse a run of decimal digits, requiring at least one. -/
def parseNumDigits (cs : List Char) : Option (Nat × List Char) :=
  match cs with
  | c :: rest =>
    if c.isDigit then some (parseDigits rest (c.toNat - 48)) else none
  | [] => none

mutual
/-- Parse one JSON value. -/
def parseValue : Nat → List Char → Option (Json × List Char)
  | 0, _ => none
  | fuel + 1, cs =>
    match skipWs cs with
    | [] => none
    | c :: rest =>
      if c = 'n' then
        match rest with
        | 'u' :: 'l' :: 'l' :: r => some (.null, r)
        | _ => none
      else if c = 't' then
        match rest with
        | 'r' :: 'u' :: 'e' :: r => some (.bool true, r)
        | _ => none
      else if c = 'f' then
        match rest with
        | 'a' :: 'l' :: 's' :: 'e' :: r => some (.bool false, r)
        | _ => none
      else if c = '"' then
        match parseStrChars (rest.length + 1) rest with
        | some (l, r) => some (.str (String.mk l), r)
        | none => none
      else if c = Char.ofNat 123 then
        match skipWs rest with
        | c₂ :: r₂ =>
          if c₂ = Char.ofNat 125 then some (.obj [], r₂)
          else
            match parseMembers fuel (c₂ :: r₂) with
            | some (kvs, r) => some (.obj kvs, r)
            | none => none
        | [] => none
      else if c = '[' then
        match skipWs rest with
        | c₂ :: r₂ =>
          if c₂ = ']' then some (.arr [], r₂)
          else
            match parseElems fuel (c₂ :: r₂) with
            | some (xs, r) => some (.arr xs, r)
            | none => none
        | [] => none
      else if c = '-' then
        match parseNumDigits rest with
        | some (n, r) => some (.num (-(n : Int)), r)
        | none => none
      else if c.isDigit then
        match parseNumDigits (c :: rest) with
        | some (n, r) => some (.num (n : Int), r)
        | none => none
      else none

/-- Parse the members of an object (positioned at the first key). -/
def parseMembers : Nat → List Char → Option (List (String × Json) × List Char)
  | 0, _ => none
  | fuel + 1, cs =>
    match skipWs cs with
    | '"' :: rest =>
      match parseStrChars (rest.length + 1) rest with
      | some (kl, r₁) =>
        match skipWs r₁ with
        | ':' :: r₂ =>
          match parseValue fuel r₂ with
          | some (v, r₃) =>
            match skipWs r₃ with
            | ',' :: r₄ =>
              match parseMembers fuel r₄ with
              | some (kvs, r₅) => some ((String.mk kl, v) :: kvs, r₅)
              | none => none
            | c :: r₄ =>
              if c = Char.ofNat 125 then some ([(String.mk kl, v)], r₄) else none
            | [] => none
          | none => none
        | _ => none
      | none => none
    | _ => none

/-- Parse the elements of an array (positioned at the first element). -/
def parseElems : Nat → List Char → Option (List Json × List Char)
  | 0, _ => none
  | fuel + 1, cs =>
    match parseValue fuel cs with
    | some (v, r₁) =>
      match skipWs r₁ with
      | ',' :: r₂ =>
        match parseElems fuel r₂ with
        | some (xs, r₃) => some (v :: xs, r₃)
        | none => none
      | ']' :: r₂ => some ([v], r₂)
      | _ => none
    | none => none
end

/-- `JSON.parse`: parse a whole string, requiring full consumption up to
trailing whitespace; `none` models a thrown `SyntaxError`. -/
def jsonParse (s : String) : Option Json :=
  match parseValue (s.length + 1) s.toList with
  | some (v, rest) => if skipWs rest = [] then some v else none
  | none => none

/-! ## Cache service (`backend/services/cacheService.js`)

The in-scope implementation is the in-memory fallback (`this.memoryCache`,
`this.memoryCacheExpiry`), the branch taken whenever Redis is not connected;
the Redis branch delegates to an external store and is out of scope per the
spec.  JavaScript `Map`s are modelled as insertion-ordered association lists
with unique keys; `Date.now()` is an explicit `now` parameter (milliseconds). -/

/-- `Map.prototype.set`: update in place if the key exists, else append. -/
def mapSet {α : Type} : List (String × α) → String → α → List (String × α)
  | [], k, v => [(k, v)]
  | (k₀, v₀) :: rest, k, v =>
    if k₀ = k then (k, v) :: rest else (k₀, v₀) :: mapSet rest k v

/-- `Map.prototype.delete`. -/
def mapDelete {α : Type} (m : List (String × α)) (k : String) : List (String × α) :=
  m.filter (fun kv => kv.1 != k)

/-- `Map.prototype.has`. -/
def mapHas {α : Type} (m : List (String × α)) (k : String) : Bool :=
  m.any (fun kv => kv.1 == k)

/-- The state of the in-memory cache: serialized values plus expiry
timestamps, as in the `CacheService` constructor. -/
structure CacheState where
  memoryCache : List (String × String)
  memoryCacheExpiry : List (String × Nat)
deriving Repr

/-- The empty cache, as built by the `CacheService` constructor. -/
def emptyCache : CacheState := ⟨[], []⟩

/-- `_cleanupMemoryCache`: remove every entry whose expiry timestamp is
strictly in the past from both maps. -/
def cleanupMemoryCache (st : CacheState) (now : Nat) : CacheState :=
  let expiredKeys := (st.memoryCacheExpiry.filter (fun kv => kv.2 < now)).map Prod.fst
  ⟨st.memoryCache.filter (fun kv => !expiredKeys.contains kv.1),
   st.memoryCacheExpiry.filter (fun kv => !expiredKeys.contains kv.1)⟩

/-- `CacheService.set` (in-memory branch): serialize, store, record expiry
`now + ttl·1000`, and run the sweep when the map size is a multiple of 10.
Returns the success flag together with the new state. -/
def cacheSet (st : CacheState) (now : Nat) (key : String) (data : Json)
    (ttl : Nat) : Bool × CacheState :=
  let serialized := jsonStringify data
  let mc := mapSet st.memoryCache key serialized
  let ex := mapSet st.memoryCacheExpiry key (now + ttl * 1000)
  let st₁ : CacheState := ⟨mc, ex⟩
  let st₂ := if mc.length % 10 = 0 then cleanupMemoryCache st₁ now else st₁
  (true, st₂)

/-- `CacheService.get` (in-memory branch): check presence, then expiry
(`if (expiry && expiry > Date.now())` — note the truthiness test on the
timestamp), evicting and missing on expired entries; parse failures are
caught and become misses.  Returns the value (or `none`) with the new state. -/
def cacheGet (st : CacheState) (now : Nat) (key : String) :
    Option Json × CacheState :=
  let (serialized, st₁) :=
    if mapHas st.memoryCache key then
      match st.memoryCacheExpiry.lookup key with
      | some e =>
        if e ≠ 0 ∧ e > now then (st.memoryCache.lookup key, st)
        else (none, ⟨mapDelete st.memoryCache key, mapDelete st.memoryCacheExpiry key⟩)
      | none => (none, ⟨mapDelete st.memoryCache key, mapDelete st.memoryCacheExpiry key⟩)
    else (none, st)
  match serialized with
  | none => (none, st₁)
  | some s => if s = "" then (none, st₁) else (jsonParse s, st₁)

/-- `CacheService.del` (in-memory branch). -/
def cacheDel (st : CacheState) (key : String) : Bool × CacheState :=
  (true, ⟨mapDelete st.memoryCache key, mapDelete st.memoryCacheExpiry key⟩)

/-- `CacheService.clear` (in-memory branch). -/
def cacheClear (_st : CacheState) : Bool × CacheState :=
  (true, ⟨[], []⟩)

/-! ## AI orchestrator (`backend/services/aiOrchestrator.js`)

The two backend HTTP calls are opaque external collaborators; each call is
modelled by an oracle value of type `Except String String`: `.ok text` is the
text the backend returned, `.error msg` is a thrown network/backend error.
`performance.now()` durations are threaded as an explicit `elapsed`
parameter (no claim constrains their value). -/

/-- Availability state (`this.modelStatus`), written by the health monitor
and read by routing and fallback. -/
structure ModelStatus where
  deepseekAvailable : Bool
  phi3Available : Bool
deriving Repr, DecidableEq

/-- The static task-routing table from `aiConfig.orchestration.taskRouting`. -/
def aiConfigTaskRouting : List (String × String) :=
  [("routeOptimization", "deepseek"),
   ("complexAnalysis", "deepseek"),
   ("weatherAnalysis", "deepseek"),
   ("vesselTracking", "phi3"),
   ("basicQueries", "phi3"),
   ("portOperations", "phi3"),
   ("criticalSafety", "both")]

/-- Orchestration configuration (routing table, cache flag and TTL), from
`aiConfig.orchestration`. -/
structure OrchConfig where
  taskRouting : List (String × String)
  cacheEnabled : Bool
  cacheTTL : Nat
deriving Repr

/-- The configuration values shipped in `aiConfig.js`. -/
def aiConfigDefault : OrchConfig := ⟨aiConfigTaskRouting, true, 3600⟩

/-- `this.taskRouting[taskType] || 'phi3'`: table lookup with JS truthiness
defaulting (an absent or empty entry defaults to the local model). -/
def preferredModelFor (taskRouting : List (String × String)) (taskType : String) : String :=
  match taskRouting.lookup taskType with
  | some p => if p ≠ "" then p else "phi3"
  | none => "phi3"

/-- `_determineTargetModel`: the availability-aware routing resolution, a
literal translation of the early-return chain in the source. -/
def determineTargetModel (taskRouting : List (String × String)) (ms : ModelStatus)
    (taskType : String) : String :=
  let preferredModel := preferredModelFor taskRouting taskType
  if !ms.deepseekAvailable && !ms.phi3Available then "offline"
  else if preferredModel == "deepseek" && ms.deepseekAvailable then "deepseek"
  else if preferredModel == "phi3" && ms.phi3Available then "phi3"
  else if preferredModel == "both" && ms.deepseekAvailable && !ms.phi3Available then "deepseek"
  else if preferredModel == "both" && !ms.deepseekAvailable && ms.phi3Available then "phi3"
  else if preferredModel == "both" && ms.deepseekAvailable && ms.phi3Available then "both"
  else if ms.phi3Available then "phi3"
  else if ms.deepseekAvailable then "deepseek"
  else "offline"

/-- The static offline-response table in `_getOfflineResponse`. -/
def offlineResponses : List (String × String) :=
  [("vesselTracking", "Vessel tracking data is not available in offline mode. Please try again when online connectivity is restored."),
   ("weatherAnalysis", "Weather analysis is not available in offline mode. Basic cached weather data may be available in your local system."),
   ("routeOptimization", "Route optimization requires online connectivity to process complex maritime data. Please try again when connection is restored."),
   ("basicQueries", "I'm currently in offline mode with limited functionality. I can provide basic information, but real-time data and advanced analysis require online connectivity."),
   ("default", "I'm currently operating in offline mode with limited capabilities. Please check your internet connection and try again later.")]

/-- The generic default offline message (`responses.default`). -/
def offlineDefaultMsg : String :=
  "I'm currently operating in offline mode with limited capabilities. Please check your internet connection and try again later."

/-- `_getOfflineResponse`: `responses[taskType] || responses.default` (the
`query` argument is accepted and ignored, as in the source). -/
def getOfflineResponse (_query taskType : String) : String :=
  match offlineResponses.lookup taskType with
  | some r => if r ≠ "" then r else offlineDefaultMsg
  | none => offlineDefaultMsg

/-- `_normalizeContext`: deep-clone via a JSON round-trip (the identity on
`Json` data), then `delete` the `timestamp` / `requestId` fields — but only
when the present value is truthy (`if (normalized.timestamp) delete …`). -/
def normalizeContext (context : Json) : Json :=
  let n₁ :=
    if ((jsonLookup context "timestamp").map jsTruthy).getD false then
      jsonDelete context "timestamp"
    else context
  if ((jsonLookup n₁ "requestId").map jsTruthy).getD false then
    jsonDelete n₁ "requestId"
  else n₁

/-- `_generateQueryId`: MD5 hex digest of the serialized
`{query, context: normalized, taskType}` record. -/
def generateQueryId (query : String) (context : Json) (taskType : String) : String :=
  let data : Json := .obj
    [("query", .str query),
     ("context", normalizeContext context),
     ("taskType", .str taskType)]
  md5Hex (jsonStringify data)

/-- JS falsiness of a backend result after `.catch(e => null)`:
`null` and the empty string are falsy. -/
def resFalsy : Option String → Bool
  | none => true
  | some s => s == ""

/-- Result record of `_processBothModels` (`result` may be JS `null`). -/
structure BothResult where
  result : Option String
  source : String
deriving Repr, DecidableEq

/-- `_processBothModels`: fan out to both backends, each call protected by
`.catch(e => null)`; `!deepseekResult` / `!phi3Result` are truthiness tests. -/
def processBothModels (deepseekCall phi3Call : Except String String) : BothResult :=
  let deepseekResult := deepseekCall.toOption
  let phi3Result := phi3Call.toOption
  if resFalsy deepseekResult then ⟨phi3Result, "phi3-fallback"⟩
  else if resFalsy phi3Result then ⟨deepseekResult, "deepseek-fallback"⟩
  else ⟨deepseekResult, "consensus-deepseek"⟩

/-- The record returned by `processQuery` (and by the fallback handler, which
omits `queryId` — modelled by `none` — and sets `fallback := true`). -/
structure QueryResult where
  result : Option Json
  source : String
  processingTime : Nat
  queryId : Option String
  fallback : Bool
deriving Repr

/-- Modelled from the spec: the aggregated double-failure error thrown by
`processQuery` (`throw new Error(...)` at the end of the catch block); the
interpolated parts of this template literal are missing from the source text,
and per §7 of the spec the message must identify both the original and the
fallback failure. -/
def aggregateErrorMsg (original fallbackMsg : String) : String :=
  "AI processing failed: " ++ original ++ ", fallback error: " ++ fallbackMsg

/-- `_handleProcessingError`: one-hop fallback to the opposite model if it is
marked available, else the canned offline response.  Returns the outcome (an
`Except` models a rethrown backend error) together with the backend calls
made. -/
def handleProcessingError (cfg : OrchConfig) (ms : ModelStatus)
    (deepseekCall phi3Call : Except String String)
    (query : String) (taskType : String) (elapsed : Nat) :
    Except String QueryResult × List String :=
  let currentModel := determineTargetModel cfg.taskRouting ms taskType
  let fallbackModel := if currentModel == "deepseek" then "phi3" else "deepseek"
  if fallbackModel == "deepseek" && ms.deepseekAvailable then
    (deepseekCall.map (fun r => ⟨some (.str r), "deepseek-fallback", elapsed, none, true⟩),
     ["deepseek"])
  else if fallbackModel == "phi3" && ms.phi3Available then
    (phi3Call.map (fun r => ⟨some (.str r), "phi3-fallback", elapsed, none, true⟩),
     ["phi3"])
  else
    (.ok ⟨some (.str (getOfflineResponse query taskType)), "offline-fallback", elapsed, none, true⟩,
     [])

/-- The complete observable outcome of one `processQuery` call: the returned
record or thrown error, the cache state after the call, and the backend
calls that were dispatched. -/
structure ProcOutcome where
  outcome : Except String QueryResult
  cache : CacheState
  calls : List String
deriving Repr

/-- The body of `processQuery` after the cache lookup (cache miss path):
resolve the target, dispatch, cache a truthy result, and on a thrown error
run `_handleProcessingError`, aggregating a double failure. -/
def processQueryUncached (cfg : OrchConfig) (ms : ModelStatus)
    (deepseekCall phi3Call : Except String String)
    (query : String) (taskType : String) (queryId : String)
    (cache₁ : CacheState) (now elapsed : Nat) : ProcOutcome :=
  let targetModel := determineTargetModel cfg.taskRouting ms taskType
  let dispatched : Except String (Option Json × String) × List String :=
    if targetModel == "both" then
      let r := processBothModels deepseekCall phi3Call
      (.ok (r.result.map Json.str, r.source), ["deepseek", "phi3"])
    else if targetModel == "deepseek" then
      (deepseekCall.map (fun r => (some (.str r), "deepseek")), ["deepseek"])
    else if targetModel == "phi3" then
      (phi3Call.map (fun r => (some (.str r), "phi3")), ["phi3"])
    else
      (.ok (some (.str (getOfflineResponse query taskType)), "offline"), [])
  match dispatched with
  | (.ok (result, source), calls₁) =>
    let cache₂ :=
      if cfg.cacheEnabled && (result.map jsTruthy).getD false then
        (cacheSet cache₁ now ("ai_query:" ++ queryId)
          (.obj [("result", result.getD .null), ("timestamp", .num now)]) cfg.cacheTTL).2
      else cache₁
    ⟨.ok ⟨result, source, elapsed, some queryId, false⟩, cache₂, calls₁⟩
  | (.error e, calls₁) =>
    match handleProcessingError cfg ms deepseekCall phi3Call query taskType elapsed with
    | (.ok qr, calls₂) => ⟨.ok qr, cache₁, calls₁ ++ calls₂⟩
    | (.error fe, calls₂) =>
      ⟨.error (aggregateErrorMsg e fe), cache₁, calls₁ ++ calls₂⟩

/-- `processQuery`: fingerprint, cache lookup (`if (cachedResult)` is a
truthiness test on the parsed value), then the dispatch path above.  The
cache key is the fingerprint-derived key used by both the lookup and the
write. -/
def processQuery (cfg : OrchConfig) (ms : ModelStatus)
    (deepseekCall phi3Call : Except String String)
    (query : String) (context : Json) (taskType : String)
    (cache : CacheState) (now elapsed : Nat) : ProcOutcome :=
  let queryId := generateQueryId query context taskType
  let cacheKey := "ai_query:" ++ queryId
  let (cachedResult, cache₁) :=
    if cfg.cacheEnabled then cacheGet cache now cacheKey else (none, cache)
  match cachedResult with
  | some cr =>
    if jsTruthy cr then
      ⟨.ok ⟨jsonLookup cr "result", "cache", elapsed, some queryId, false⟩, cache₁, []⟩
    else
      processQueryUncached cfg ms deepseekCall phi3Call query taskType queryId cache₁ now elapsed
  | none =>
    processQueryUncached cfg ms deepseekCall phi3Call query taskType queryId cache₁ now elapsed

/-! ## Health monitor (`_checkModelStatus`) -/

/-- Monitor state: the availability snapshot plus the offline-mode flag. -/
structure MonitorState where
  deepseekAvailable : Bool
  phi3Available : Bool
  offlineMode : Bool
deriving Repr, DecidableEq

/-- The state at construction time (`modelStatus` both-false, `offlineMode`
false). -/
def initialMonitorState : MonitorState := ⟨false, false, false⟩

/-- One `_checkModelStatus` tick, given the two probe outcomes: updates the
state and returns the log messages emitted, in emission order. -/
def checkModelStatus (st : MonitorState) (deepseekAvailable phi3Available : Bool) :
    MonitorState × List String :=
  let (offlineMode, offlineLogs) :=
    if !deepseekAvailable && !phi3Available then
      if !st.offlineMode then (true, ["All AI models unavailable - entering offline mode"])
      else (true, [])
    else if st.offlineMode then (false, ["AI models now available - exiting offline mode"])
    else (false, [])
  let logs := offlineLogs
    ++ (if !deepseekAvailable then ["DeepSeek AI service unavailable"] else [])
    ++ (if !phi3Available then ["Phi-3 AI service unavailable"] else [])
  (⟨deepseekAvailable, phi3Available, offlineMode⟩, logs)

/-- Run a sequence of health-check ticks, collecting the per-tick logs. -/
def runChecks (st : MonitorState) (ticks : List (Bool × Bool)) :
    MonitorState × List (List String) :=
  ticks.foldl
    (fun acc t =>
      let (st₁, logs) := checkModelStatus acc.1 t.1 t.2
      (st₁, acc.2 ++ [logs]))
    (st, [])

/-! ## Spec-side definitions (for the refinement claims)

These follow the wording of the specification, not the source, and exist to
be compared with the source-derived definitions above. -/

/-- The spec names the backends `remote` (DeepSeek) and `local` (Phi-3);
this renames the source target/source labels into the spec vocabulary. -/
def sourceToSpecName (s : String) : String :=
  if s = "deepseek" then "remote"
  else if s = "phi3" then "local"
  else if s = "deepseek-fallback" then "remote-fallback"
  else if s = "phi3-fallback" then "local-fallback"
  else if s = "consensus-deepseek" then "consensus-remote"
  else s

/-- Spec-side routing resolution (§4.3 / C1), exactly as the claim words it:
offline short-circuit; honor an available preferred backend; `both` degrades
to the single available backend; otherwise any available backend, preferring
local. -/
def specResolveTarget (remoteUp localUp : Bool) (pref : String) : String :=
  if !remoteUp && !localUp then "offline"
  else if pref == "remote" && remoteUp then "remote"
  else if pref == "local" && localUp then "local"
  else if pref == "both" then
    if remoteUp && localUp then "both"
    else if remoteUp then "remote"
    else "local"
  else if localUp then "local"
  else "remote"

/-- Renaming of code-level routing preferences into the spec vocabulary. -/
def codePrefToSpec (p : String) : String :=
  if p = "deepseek" then "remote" else if p = "phi3" then "local" else p

/-! ## Predicates used in theorem statements -/

/-- A JavaScript `Map` / object invariant: keys are pairwise distinct. -/
def keysNodup {α : Type} (m : List (String × α)) : Prop :=
  (m.map Prod.fst).Nodup

instance {α : Type} (m : List (String × α)) : Decidable (keysNodup m) := by
  unfold keysNodup; infer_instance

/-- Whether a volatile context field is absent or truthy (the situation in
which `_normalizeContext` actually strips it). -/
def volatileOkB (ctx : Json) (k : String) : Bool :=
  match jsonLookup ctx k with
  | some j => jsTruthy j
  | none => true

/-- Whether a backend-call oracle models a thrown error. -/
def threwB : Except String String → Bool
  | .error _ => true
  | .ok _ => false

/-- Whether a `processQuery` outcome is a hard (thrown) error. -/
def hardErrorB : Except String QueryResult → Bool
  | .error _ => true
  | .ok _ => false

/-- Whether the cache lookup performed at the start of `processQuery` hits
(caching enabled, entry present, parsed value truthy). -/
def cacheHitB (cfg : OrchConfig) (cache : CacheState) (now : Nat) (key : String) : Bool :=
  cfg.cacheEnabled &&
    (match (cacheGet cache now key).1 with
     | some cr => jsTruthy cr
     | none => false)

/-- Whether the primary dispatch of `processQuery` throws: a single-backend
target whose oracle call errors (fan-out and offline dispatches never throw). -/
def primaryThrewB (cfg : OrchConfig) (ms : ModelStatus)
    (deepseekCall phi3Call : Except String String) (taskType : String) : Bool :=
  let t := determineTargetModel cfg.taskRouting ms taskType
  (t == "deepseek" && threwB deepseekCall) || (t == "phi3" && threwB phi3Call)

/-- Whether `_handleProcessingError` rethrows: the opposite backend is marked
available and its call errors. -/
def fallbackThrewB (cfg : OrchConfig) (ms : ModelStatus)
    (deepseekCall phi3Call : Except String String) (taskType : String) : Bool :=
  let t := determineTargetModel cfg.taskRouting ms taskType
  let fb := if t == "deepseek" then "phi3" else "deepseek"
  if fb == "deepseek" then ms.deepseekAvailable && threwB deepseekCall
  else ms.phi3Available && threwB phi3Call

end Triton

namespace Triton

/-! ## Association-list lemmas -/

theorem lookup_cons_ne {α : Type} {k k₀ : String} {v₀ : α} {tl : List (String × α)}
    (h : k ≠ k₀) : ((k₀, v₀) :: tl).lookup k = tl.lookup k := by
  have hb : (k == k₀) = false := beq_eq_false_iff_ne.mpr h
  simp [List.lookup_cons, hb]

theorem lookup_mapSet_self {α : Type} (m : List (String × α)) (k : String) (v : α) :
    (mapSet m k v).lookup k = some v := by
  induction m with
  | nil => simp [mapSet]
  | cons hd tl ih =>
    obtain ⟨k₀, v₀⟩ := hd
    by_cases h : k₀ = k
    · simp [mapSet, h]
    · rw [mapSet, if_neg h, lookup_cons_ne (Ne.symm h)]
      exact ih

theorem mapHas_of_lookup {α : Type} {m : List (String × α)} {k : String} {v : α}
    (h : m.lookup k = some v) : mapHas m k = true := by
  induction m with
  | nil => simp at h
  | cons hd tl ih =>
    obtain ⟨k₀, v₀⟩ := hd
    by_cases hk : k = k₀
    · simp [mapHas, hk]
    · rw [lookup_cons_ne hk] at h
      simp only [mapHas, List.any_cons, Bool.or_eq_true]
      exact Or.inr (ih h)

theorem lookup_filter_key {α : Type} (m : List (String × α)) (k : String)
    (q : String → Bool) (hq : q k = true) :
    ((m.filter (fun kv => q kv.1)).lookup k) = m.lookup k := by
  induction m with
  | nil => simp
  | cons hd tl ih =>
    obtain ⟨k₀, v₀⟩ := hd
    by_cases h : k = k₀
    · subst h
      simp [List.filter_cons, hq, ih]
    · by_cases hq₀ : q k₀ = true
      · rw [List.filter_cons, if_pos (by simpa using hq₀), lookup_cons_ne h,
          lookup_cons_ne h]
        exact ih
      · rw [List.filter_cons, if_neg (by simpa using hq₀), lookup_cons_ne h]
        exact ih

theorem lookup_mapDelete_self {α : Type} (m : List (String × α)) (k : String) :
    (mapDelete m k).lookup k = none := by
  induction m with
  | nil => simp [mapDelete]
  | cons hd tl ih =>
    obtain ⟨k₀, v₀⟩ := hd
    by_cases h : k₀ = k
    · rw [mapDelete, List.filter_cons, if_neg (by simpa using h)]
      exact ih
    · rw [mapDelete, List.filter_cons, if_pos (by simpa using h),
        lookup_cons_ne (Ne.symm h)]
      exact ih

theorem filter_ne_of_lookup_none {α : Type} (m : List (String × α)) (k : String)
    (h : m.lookup k = none) : m.filter (fun kv => kv.1 != k) = m := by
  induction m with
  | nil => simp
  | cons hd tl ih =>
    obtain ⟨k₀, v₀⟩ := hd
    by_cases hk : k = k₀
    · subst hk
      simp at h
    · rw [lookup_cons_ne hk] at h
      rw [List.filter_cons, if_pos (by simpa using Ne.symm hk), ih h]

theorem keys_mapSet {α : Type} (m : List (String × α)) (k x : String) (v : α)
    (hx : x ∈ (mapSet m k v).map Prod.fst) : x ∈ m.map Prod.fst ∨ x = k := by
  induction m with
  | nil => simpa [mapSet] using hx
  | cons hd tl ih =>
    obtain ⟨k₀, v₀⟩ := hd
    by_cases h : k₀ = k
    · simp only [mapSet, if_pos h] at hx
      rcases (by simpa using hx) with h₁ | h₂
      · right; exact h₁
      · left; simp [h₂]
    · simp only [mapSet, if_neg h] at hx
      rcases (by simpa using hx) with h₁ | h₂
      · left; simp [h₁]
      · rcases ih (by simpa using h₂) with h₃ | h₄
        · left; simp [h₃]
        · right; exact h₄

theorem keysNodup_mapSet {α : Type} (m : List (String × α)) (k : String) (v : α)
    (h : keysNodup m) : keysNodup (mapSet m k v) := by
  induction m with
  | nil => simp [keysNodup, mapSet]
  | cons hd tl ih =>
    obtain ⟨k₀, v₀⟩ := hd
    simp only [keysNodup, List.map_cons, List.nodup_cons] at h
    by_cases hk : k₀ = k
    · subst hk
      simpa [keysNodup, mapSet] using h
    · have htl := ih h.2
      simp only [keysNodup, mapSet, if_neg hk, List.map_cons, List.nodup_cons]
      refine ⟨?_, htl⟩
      intro hmem
      rcases keys_mapSet tl k k₀ v hmem with h₁ | h₂
      · exact h.1 h₁
      · exact hk h₂

theorem keysNodup_filter {α : Type} (m : List (String × α)) (p : String × α → Bool)
    (h : keysNodup m) : keysNodup (m.filter p) := by
  unfold keysNodup at h ⊢
  exact ((List.filter_sublist (l := m) (p := p)).map Prod.fst).nodup h

theorem mapSet_key_entries {α : Type} (m : List (String × α)) (k : String) (v : α)
    (h : keysNodup m) : ∀ v₁, (k, v₁) ∈ mapSet m k v → v₁ = v := by
  induction m with
  | nil => intro v₁ hmem; simpa [mapSet] using hmem
  | cons hd tl ih =>
    obtain ⟨k₀, v₀⟩ := hd
    simp only [keysNodup, List.map_cons, List.nodup_cons] at h
    intro v₁ hmem
    by_cases hk : k₀ = k
    · subst hk
      simp only [mapSet, if_pos rfl] at hmem
      rcases (by simpa using hmem) with h₁ | h₂
      · exact h₁
      · exact absurd (by simpa using List.mem_map_of_mem Prod.fst h₂) h.1
    · simp only [mapSet, if_neg hk] at hmem
      rcases (by simpa using hmem) with h₁ | h₂
      · exact absurd h₁.1.symm hk
      · exact ih h.2 v₁ h₂

/-! ## Cache-service lemmas -/

theorem not_mem_expiredKeys (ex : List (String × Nat)) (k : String) (E now : Nat)
    (hnd : keysNodup ex) (hE : ¬ E < now) :
    (((mapSet ex k E).filter (fun kv => kv.2 < now)).map Prod.fst).contains k = false := by
  by_contra hc
  have hc₁ : k ∈ ((mapSet ex k E).filter (fun kv => decide (kv.2 < now))).map Prod.fst := by
    have hb := Bool.not_eq_false _ |>.mp hc
    simpa [List.contains, List.elem_iff] using hb
  obtain ⟨⟨k₁, v₁⟩, hmem, hfst⟩ := List.mem_map.mp hc₁
  obtain ⟨hmem₁, hlt⟩ := List.mem_filter.mp hmem
  subst hfst
  have hv : v₁ = E := mapSet_key_entries ex k₁ E hnd v₁ hmem₁
  exact hE (hv ▸ of_decide_eq_true hlt)

theorem cacheSet_lookup (st : CacheState) (now : Nat) (key : String) (v : Json)
    (ttl : Nat) (hnd : keysNodup st.memoryCacheExpiry) :
    (cacheSet st now key v ttl).2.memoryCache.lookup key = some (jsonStringify v)
    ∧ (cacheSet st now key v ttl).2.memoryCacheExpiry.lookup key
        = some (now + ttl * 1000) := by
  unfold cacheSet
  simp only
  split
  · unfold cleanupMemoryCache
    simp only
    have hbad :
        ((((mapSet st.memoryCacheExpiry key (now + ttl * 1000)).filter
          (fun kv => kv.2 < now)).map Prod.fst).contains key) = false :=
      not_mem_expiredKeys st.memoryCacheExpiry key (now + ttl * 1000) now hnd
        (by omega)
    constructor
    · exact (lookup_filter_key (mapSet st.memoryCache key (jsonStringify v)) key
        (fun x => !(((mapSet st.memoryCacheExpiry key (now + ttl * 1000)).filter
          (fun kv => kv.2 < now)).map Prod.fst).contains x)
        (by simp only [Bool.not_eq_true', hbad])).trans (lookup_mapSet_self _ _ _)
    · exact (lookup_filter_key (mapSet st.memoryCacheExpiry key (now + ttl * 1000)) key
        (fun x => !(((mapSet st.memoryCacheExpiry key (now + ttl * 1000)).filter
          (fun kv => kv.2 < now)).map Prod.fst).contains x)
        (by simp only [Bool.not_eq_true', hbad])).trans (lookup_mapSet_self _ _ _)
  · exact ⟨lookup_mapSet_self _ _ _, lookup_mapSet_self _ _ _⟩

theorem cacheGet_live (st : CacheState) (now : Nat) (key : String) (sv : String)
    (E : Nat) (h₁ : st.memoryCache.lookup key = some sv)
    (h₂ : st.memoryCacheExpiry.lookup key = some E)
    (hE0 : E ≠ 0) (hEgt : E > now) :
    cacheGet st now key = (jsonParse sv, st) := by
  unfold cacheGet
  rw [mapHas_of_lookup h₁]
  simp only [h₂, if_true, h₁]
  rw [if_pos ⟨hE0, hEgt⟩]
  by_cases hsv : sv = ""
  · subst hsv; rfl
  · simp [hsv]

theorem cacheGet_dead (st : CacheState) (now : Nat) (key : String) (sv : String)
    (E : Nat) (h₁ : st.memoryCache.lookup key = some sv)
    (h₂ : st.memoryCacheExpiry.lookup key = some E)
    (hE : ¬ (E ≠ 0 ∧ E > now)) :
    cacheGet st now key
      = (none, ⟨mapDelete st.memoryCache key, mapDelete st.memoryCacheExpiry key⟩) := by
  unfold cacheGet
  rw [mapHas_of_lookup h₁]
  simp only [h₂, if_true]
  rw [if_neg hE]

theorem cacheGet_state (st : CacheState) (now : Nat) (key : String) :
    (cacheGet st now key).2 = st
    ∨ (cacheGet st now key).2
        = ⟨mapDelete st.memoryCache key, mapDelete st.memoryCacheExpiry key⟩ := by
  by_cases hhas : mapHas st.memoryCache key
  · rcases hlk : st.memoryCacheExpiry.lookup key with _ | E
    · right; simp [cacheGet, hhas, hlk]
    · by_cases hE : E ≠ 0 ∧ E > now
      · rcases hsv : st.memoryCache.lookup key with _ | s
        · left; simp [cacheGet, hhas, hlk, hE, hsv]
        · by_cases hs : s = ""
          · left; simp [cacheGet, hhas, hlk, hE, hsv, hs]
          · left; simp [cacheGet, hhas, hlk, hE, hsv, hs]
      · right; simp [cacheGet, hhas, hlk, hE]
  · left; simp [cacheGet, hhas]

theorem cacheGet_nodup (st : CacheState) (now : Nat) (key : String)
    (h₁ : keysNodup st.memoryCache) (h₂ : keysNodup st.memoryCacheExpiry) :
    keysNodup (cacheGet st now key).2.memoryCache
    ∧ keysNodup (cacheGet st now key).2.memoryCacheExpiry := by
  rcases cacheGet_state st now key with h | h <;> rw [h]
  · exact ⟨h₁, h₂⟩
  · exact ⟨keysNodup_filter _ _ h₁, keysNodup_filter _ _ h₂⟩

end Triton

set_option maxRecDepth 4000 in
/-- Sanity check of the MD5 implementation against RFC 1321's test vector. -/
theorem Triton.md5_rfc1321_vector :
    Triton.md5Hex "abc" = "900150983cd24fb0d6963f7d28e17f72" := by decide

namespace Triton

/-! ## Normalization lemmas for the fingerprint -/

theorem normalizeContext_eq_erase (ctx : Json)
    (ht : volatileOkB ctx "timestamp" = true)
    (hr : volatileOkB ctx "requestId" = true) :
    normalizeContext ctx = jsonDelete (jsonDelete ctx "timestamp") "requestId" := by
  cases ctx with
  | obj kvs =>
    have hstep :
        normalizeContext (.obj kvs)
          = (if ((jsonLookup (jsonDelete (.obj kvs) "timestamp") "requestId").map
                jsTruthy).getD false
             then jsonDelete (jsonDelete (.obj kvs) "timestamp") "requestId"
             else jsonDelete (.obj kvs) "timestamp") := by
      unfold normalizeContext
      rcases hT : kvs.lookup "timestamp" with _ | j
      · have hid : jsonDelete (.obj kvs) "timestamp" = .obj kvs := by
          simp only [jsonDelete, filter_ne_of_lookup_none kvs "timestamp" hT]
        rw [hid]
        simp [jsonLookup, hT]
      · have hj : jsTruthy j = true := by
          simpa [volatileOkB, jsonLookup, hT] using ht
        simp [jsonLookup, hT, hj]
    rw [hstep]
    have hfl : (kvs.filter (fun kv => kv.1 != "timestamp")).lookup "requestId"
        = kvs.lookup "requestId" :=
      lookup_filter_key kvs "requestId" (fun x => x != "timestamp") (by decide)
    rcases hR : kvs.lookup "requestId" with _ | j
    · rw [hR] at hfl
      simp only [jsonDelete, jsonLookup, hfl, Option.map_none, Option.getD_none]
      simp only [filter_ne_of_lookup_none _ "requestId" hfl]
      simp
    · have hj : jsTruthy j = true := by
        simpa [volatileOkB, jsonLookup, hR] using hr
      rw [hR] at hfl
      simp [jsonDelete, jsonLookup, hfl, hj]
  | null => rfl
  | bool b => rfl
  | num n => rfl
  | str s => rfl
  | arr xs => rfl

end Triton

/-! ## Claim theorems -/

namespace Triton

set_option maxRecDepth 8000 in
/-- C3 (counterexample): the fingerprint is NOT invariant under adding or
removing the volatile fields for every possible value of those fields: a
falsy `timestamp` (here `0`) is not stripped by `_normalizeContext`
(`if (normalized.timestamp)` fails), so a context carrying `timestamp: 0`
fingerprints differently from the same context without it, even though the
two contexts differ only in the volatile field. -/
theorem fingerprint_falsy_timestamp_counterexample :
    jsonDelete (.obj [("timestamp", .num 0)]) "timestamp"
      = jsonDelete (.obj ([] : List (String × Json))) "timestamp"
    ∧ generateQueryId "q" (.obj [("timestamp", .num 0)]) "t"
        ≠ generateQueryId "q" (.obj ([] : List (String × Json))) "t" := by
  constructor
  · rfl
  · decide

/-- C3 (amended): the fingerprint is invariant under adding or removing the
volatile `timestamp` / `requestId` fields provided every present volatile
field holds a truthy value: any two contexts whose non-volatile content
agrees (equal after erasing both volatile keys) yield identical
fingerprints. -/
theorem fingerprint_stable_truthy_volatile (query taskType : String)
    (ctx₁ ctx₂ : Json)
    (h₁t : volatileOkB ctx₁ "timestamp" = true)
    (h₁r : volatileOkB ctx₁ "requestId" = true)
    (h₂t : volatileOkB ctx₂ "timestamp" = true)
    (h₂r : volatileOkB ctx₂ "requestId" = true)
    (heq : jsonDelete (jsonDelete ctx₁ "timestamp") "requestId"
         = jsonDelete (jsonDelete ctx₂ "timestamp") "requestId") :
    generateQueryId query ctx₁ taskType = generateQueryId query ctx₂ taskType := by
  unfold generateQueryId
  rw [normalizeContext_eq_erase ctx₁ h₁t h₁r, normalizeContext_eq_erase ctx₂ h₂t h₂r,
    heq]

/-- Witness for the amended C3: two concrete contexts differing only in a
truthy `timestamp` and a truthy `requestId` fingerprint identically. -/
theorem fingerprint_stable_truthy_volatile_witness :
    generateQueryId "What is the ETA"
        (.obj [("vessel", .str "Aurora"), ("timestamp", .num 1728000000000)])
        "basicQueries"
      = generateQueryId "What is the ETA"
        (.obj [("requestId", .str "r-17"), ("vessel", .str "Aurora")])
        "basicQueries" :=
  fingerprint_stable_truthy_volatile "What is the ETA" "basicQueries"
    (.obj [("vessel", .str "Aurora"), ("timestamp", .num 1728000000000)])
    (.obj [("requestId", .str "r-17"), ("vessel", .str "Aurora")])
    (by decide) (by decide) (by decide) (by decide) rfl

/-- C5: when the resolved target is `both` and both backend calls succeed
(with non-empty text, the success test JavaScript applies), the fan-out
returns the DeepSeek (remote) text and discards the Phi-3 (local) text; the
source label is the code string for the spec name `consensus-remote`.  In
the model both results are awaited (`Promise.all`), so the outcome cannot
depend on arrival order. -/
theorem consensus_prefers_remote (ds phi : String) (hds : ds ≠ "") (hphi : phi ≠ "") :
    processBothModels (.ok ds) (.ok phi) = ⟨some ds, "consensus-deepseek"⟩
    ∧ sourceToSpecName "consensus-deepseek" = "consensus-remote" := by
  constructor
  · simp [processBothModels, resFalsy, Except.toOption, beq_iff_eq, hds, hphi]
  · rfl

/-- Witness for C5. -/
theorem consensus_prefers_remote_witness :
    processBothModels (.ok "remote answer") (.ok "local answer")
      = ⟨some "remote answer", "consensus-deepseek"⟩
    ∧ sourceToSpecName "consensus-deepseek" = "consensus-remote" :=
  consensus_prefers_remote "remote answer" "local answer" (by decide) (by decide)

/-- C10: in the fan-out dispatch, a backend call that succeeds with empty
text is treated exactly like a failed call (the test is truthiness of the
returned text): an empty remote text yields the local text with source
`phi3-fallback`, symmetrically an empty local text yields the remote text
with source `deepseek-fallback`, and an empty success is indistinguishable
from a thrown error. -/
theorem emptyString_success_treated_as_failure (ds phi : String)
    (hds : ds ≠ "") (hphi : phi ≠ "") :
    processBothModels (.ok "") (.ok phi) = ⟨some phi, "phi3-fallback"⟩
    ∧ processBothModels (.ok ds) (.ok "") = ⟨some ds, "deepseek-fallback"⟩
    ∧ (∀ e, processBothModels (.error e) (.ok phi)
          = processBothModels (.ok "") (.ok phi))
    ∧ (∀ e, processBothModels (.ok ds) (.error e)
          = processBothModels (.ok ds) (.ok "")) := by
  refine ⟨?_, ?_, fun e => ?_, fun e => ?_⟩ <;>
    simp [processBothModels, resFalsy, Except.toOption, beq_iff_eq, hds, hphi]

/-- Witness for C10. -/
theorem emptyString_success_treated_as_failure_witness :
    processBothModels (.ok "") (.ok "local answer")
      = ⟨some "local answer", "phi3-fallback"⟩
    ∧ processBothModels (.ok "remote answer") (.ok "")
      = ⟨some "remote answer", "deepseek-fallback"⟩ := by
  obtain ⟨h₁, h₂, _, _⟩ :=
    emptyString_success_treated_as_failure "remote answer" "local answer"
      (by decide) (by decide)
  exact ⟨h₁, h₂⟩

/-- C8 (counterexample): the per-backend unavailability warning is emitted on
every tick on which the backend is unavailable, not only on the tick where
its availability changes from true to false: after a first tick with
DeepSeek down, a second identical tick — on which DeepSeek merely REMAINS
down (its recorded availability is already `false`) — emits the warning
again. -/
theorem monitor_levelTriggered_counterexample :
    (checkModelStatus initialMonitorState false true).1.deepseekAvailable = false
    ∧ (checkModelStatus (checkModelStatus initialMonitorState false true).1 false true).2
        = ["DeepSeek AI service unavailable"] := by
  exact ⟨rfl, rfl⟩

/-- C8 (amended): per health-check tick, the offline-mode logs are
edge-triggered exactly as the claim states (entering: both probes down and
offline mode not yet set; leaving: some probe up and offline mode set), but
the per-backend unavailability warning is level-triggered: it is emitted on
every tick on which that backend's probe is down, regardless of the previous
availability. -/
theorem monitor_log_semantics (st : MonitorState) (ds phi : Bool) :
    (checkModelStatus st ds phi).2.contains
        "All AI models unavailable - entering offline mode"
      = (!ds && !phi && !st.offlineMode)
    ∧ (checkModelStatus st ds phi).2.contains
        "AI models now available - exiting offline mode"
      = ((ds || phi) && st.offlineMode)
    ∧ (checkModelStatus st ds phi).2.contains "DeepSeek AI service unavailable" = !ds
    ∧ (checkModelStatus st ds phi).2.contains "Phi-3 AI service unavailable" = !phi
    ∧ (checkModelStatus st ds phi).1 = ⟨ds, phi, !ds && !phi⟩ := by
  obtain ⟨a, b, c⟩ := st
  cases ds <;> cases phi <;> cases c <;> exact ⟨rfl, rfl, rfl, rfl, rfl⟩

/-- C2: when the resolved target is `both` and both concurrent backend calls
fail, `processQuery` does NOT escalate to the fallback chain: both `.catch`
handlers turn the errors into `null`, `_processBothModels` takes its first
branch and returns the (null) Phi-3 result labelled `phi3-fallback`, and the
caller receives `{result: null, source: 'phi3-fallback'}` — not the
task-category canned offline message the claim requires (for
`criticalSafety`, the generic default shown below). -/
theorem bothFailure_returns_null_not_offline :
    determineTargetModel aiConfigTaskRouting ⟨true, true⟩ "criticalSafety" = "both"
    ∧ (processQuery ⟨aiConfigTaskRouting, false, 3600⟩ ⟨true, true⟩
        (.error "remote call failed") (.error "local call failed")
        "Assess collision risk" (.obj []) "criticalSafety" emptyCache 0 5).outcome
      = .ok ⟨none, "phi3-fallback", 5,
          some (generateQueryId "Assess collision risk" (.obj []) "criticalSafety"),
          false⟩
    ∧ getOfflineResponse "Assess collision risk" "criticalSafety" = offlineDefaultMsg := by
  exact ⟨rfl, rfl, rfl⟩

/-- C7: on the in-memory cache, `set` with TTL `T` then `get` strictly before
`T` seconds have elapsed returns the stored value (equal after the JSON
serialize/parse round-trip) leaving the state untouched, while `get` once
`T` seconds have elapsed misses and evicts the entry from both maps; misses
are returned as `none`, never raised, and `set`/`del`/`clear` return a
boolean success flag (`true` on the in-memory path). -/
theorem cache_roundTrip_ttl (st : CacheState) (key : String) (v : Json)
    (ttl now now₂ : Nat) (hnd : keysNodup st.memoryCacheExpiry) :
    (cacheSet st now key v ttl).1 = true
    ∧ (now₂ < now + ttl * 1000 →
        cacheGet (cacheSet st now key v ttl).2 now₂ key
          = (jsonParse (jsonStringify v), (cacheSet st now key v ttl).2))
    ∧ (now + ttl * 1000 ≤ now₂ →
        (cacheGet (cacheSet st now key v ttl).2 now₂ key).1 = none
        ∧ (cacheGet (cacheSet st now key v ttl).2 now₂ key).2.memoryCache.lookup key
            = none
        ∧ (cacheGet (cacheSet st now key v ttl).2 now₂ key).2.memoryCacheExpiry.lookup
            key = none)
    ∧ (cacheDel st key).1 = true
    ∧ (cacheClear st).1 = true := by
  obtain ⟨L₁, L₂⟩ := cacheSet_lookup st now key v ttl hnd
  refine ⟨rfl, fun h => ?_, fun h => ?_, rfl, rfl⟩
  · exact cacheGet_live _ now₂ key _ _ L₁ L₂ (by omega) (by omega)
  · rw [cacheGet_dead _ now₂ key _ _ L₁ L₂ (by omega)]
    exact ⟨rfl, lookup_mapDelete_self _ _, lookup_mapDelete_self _ _⟩

/-- Witness for C7: a concrete round trip (TTL 10 s, written at 1000 ms, read
at 5000 ms) and a concrete expiry (read at 11000 ms). -/
theorem cache_roundTrip_ttl_witness :
    (cacheSet emptyCache 1000 "k" (.str "v") 10).1 = true
    ∧ cacheGet (cacheSet emptyCache 1000 "k" (.str "v") 10).2 5000 "k"
        = (jsonParse (jsonStringify (.str "v")), (cacheSet emptyCache 1000 "k" (.str "v") 10).2)
    ∧ (cacheGet (cacheSet emptyCache 1000 "k" (.str "v") 10).2 11000 "k").1 = none := by
  obtain ⟨h₁, h₂, _, _, _⟩ :=
    cache_roundTrip_ttl emptyCache "k" (.str "v") 10 1000 5000 (by decide)
  obtain ⟨_, _, h₃, _, _⟩ :=
    cache_roundTrip_ttl emptyCache "k" (.str "v") 10 1000 11000 (by decide)
  exact ⟨h₁, h₂ (by omega), (h₃ (by omega)).1⟩

/-- C1: the routing resolution agrees, for every routing table, availability
pair and task category (whose table entry is one of the three legal
preferences, or absent — defaulting to local), with the resolution algorithm
the claim states, rendered in the spec vocabulary (`deepseek` ↦ `remote`,
`phi3` ↦ `local`); and the seven concrete rows of the spec routing table
hold, with `(false, false, ∗) → offline` for every table and category. -/
theorem routing_resolution_matches_spec (rt : List (String × String)) (ds phi : Bool)
    (taskType : String)
    (hpref : preferredModelFor rt taskType = "deepseek"
      ∨ preferredModelFor rt taskType = "phi3"
      ∨ preferredModelFor rt taskType = "both") :
    sourceToSpecName (determineTargetModel rt ⟨ds, phi⟩ taskType)
      = specResolveTarget ds phi (codePrefToSpec (preferredModelFor rt taskType))
    ∧ sourceToSpecName (determineTargetModel aiConfigTaskRouting ⟨true, true⟩ "weatherAnalysis") = "remote"
    ∧ sourceToSpecName (determineTargetModel aiConfigTaskRouting ⟨true, true⟩ "basicQueries") = "local"
    ∧ sourceToSpecName (determineTargetModel aiConfigTaskRouting ⟨true, true⟩ "criticalSafety") = "both"
    ∧ sourceToSpecName (determineTargetModel aiConfigTaskRouting ⟨true, false⟩ "weatherAnalysis") = "remote"
    ∧ sourceToSpecName (determineTargetModel aiConfigTaskRouting ⟨true, false⟩ "basicQueries") = "remote"
    ∧ sourceToSpecName (determineTargetModel aiConfigTaskRouting ⟨false, true⟩ "weatherAnalysis") = "local"
    ∧ (∀ rt₂ t₂, determineTargetModel rt₂ ⟨false, false⟩ t₂ = "offline") := by
  refine ⟨?_, rfl, rfl, rfl, rfl, rfl, rfl, fun rt₂ t₂ => rfl⟩
  rcases hpref with h | h | h <;>
    simp only [determineTargetModel, specResolveTarget, codePrefToSpec, sourceToSpecName, h] <;>
    cases ds <;> cases phi <;> decide

/-- Witness for C1: resolution for `basicQueries` (preference local) with
only the remote backend up falls back to the remote backend. -/
theorem routing_resolution_matches_spec_witness :
    sourceToSpecName (determineTargetModel aiConfigTaskRouting ⟨true, false⟩ "basicQueries")
      = specResolveTarget true false (codePrefToSpec (preferredModelFor aiConfigTaskRouting "basicQueries")) :=
  (routing_resolution_matches_spec aiConfigTaskRouting true false "basicQueries"
    (Or.inr (Or.inl rfl))).1

end Triton

namespace Triton

/-! ## `processQuery` path lemmas -/

theorem processQuery_miss (cfg : OrchConfig) (ms : ModelStatus)
    (ds phi : Except String String) (query : String) (context : Json)
    (taskType : String) (cache : CacheState) (now e : Nat)
    (hmiss : cacheHitB cfg cache now
      ("ai_query:" ++ generateQueryId query context taskType) = false) :
    processQuery cfg ms ds phi query context taskType cache now e
      = processQueryUncached cfg ms ds phi query taskType
          (generateQueryId query context taskType)
          (if cfg.cacheEnabled
           then (cacheGet cache now ("ai_query:" ++ generateQueryId query context taskType)).2
           else cache) now e := by
  unfold processQuery
  unfold cacheHitB at hmiss
  rcases hce : cfg.cacheEnabled with _ | _
  · simp
  · rcases hp : cacheGet cache now ("ai_query:" ++ generateQueryId query context taskType)
      with ⟨cr, c₁⟩
    rcases cr with _ | j
    · simp [hp]
    · have hj : jsTruthy j = false := by simpa [hce, hp] using hmiss
      simp [hp, hj]

theorem processQuery_hit (cfg : OrchConfig) (ms : ModelStatus)
    (ds phi : Except String String) (query : String) (context : Json)
    (taskType : String) (cache : CacheState) (now e : Nat)
    (hhit : cacheHitB cfg cache now
      ("ai_query:" ++ generateQueryId query context taskType) = true) :
    ∃ cr, (cacheGet cache now ("ai_query:" ++ generateQueryId query context taskType)).1
        = some cr
      ∧ processQuery cfg ms ds phi query context taskType cache now e
        = ⟨.ok ⟨jsonLookup cr "result", "cache", e,
              some (generateQueryId query context taskType), false⟩,
           (cacheGet cache now ("ai_query:" ++ generateQueryId query context taskType)).2,
           []⟩ := by
  unfold processQuery
  unfold cacheHitB at hhit
  rcases hce : cfg.cacheEnabled with _ | _
  · rw [hce] at hhit; simp at hhit
  · rcases hp : cacheGet cache now ("ai_query:" ++ generateQueryId query context taskType)
      with ⟨cr, c₁⟩
    rcases cr with _ | j
    · rw [hce, hp] at hhit; simp at hhit
    · have hj : jsTruthy j = true := by simpa [hce, hp] using hhit
      exact ⟨j, by simp [hp], by simp [hp, hj]⟩

theorem processQueryUncached_offline (cfg : OrchConfig)
    (ds phi : Except String String) (query taskType qid : String)
    (cache : CacheState) (now e : Nat) :
    processQueryUncached cfg ⟨false, false⟩ ds phi query taskType qid cache now e
      = ⟨.ok ⟨some (.str (getOfflineResponse query taskType)), "offline", e, some qid,
            false⟩,
         (if cfg.cacheEnabled && jsTruthy (.str (getOfflineResponse query taskType))
          then (cacheSet cache now ("ai_query:" ++ qid)
            (.obj [("result", .str (getOfflineResponse query taskType)),
                   ("timestamp", .num now)]) cfg.cacheTTL).2
          else cache),
         []⟩ := by
  unfold processQueryUncached
  have ht : determineTargetModel cfg.taskRouting ⟨false, false⟩ taskType = "offline" := rfl
  rw [ht]
  simp

theorem getOfflineResponse_ne_empty (query taskType : String) :
    getOfflineResponse query taskType ≠ "" := by
  unfold getOfflineResponse
  rcases h : offlineResponses.lookup taskType with _ | r
  · decide
  · by_cases hr : r = ""
    · simp [hr]
      decide
    · simp [hr]

theorem offline_lookup_ne_empty {taskType r : String}
    (h : offlineResponses.lookup taskType = some r) : r ≠ "" := by
  simp only [offlineResponses, List.lookup_cons] at h
  iterate 5 (all_goals try split at h)
  all_goals simp_all
  all_goals subst h
  all_goals decide

theorem processQueryUncached_offline_cached (cfg : OrchConfig)
    (ds phi : Except String String) (query taskType qid : String)
    (cache : CacheState) (now e : Nat) (hen : cfg.cacheEnabled = true) :
    processQueryUncached cfg ⟨false, false⟩ ds phi query taskType qid cache now e
      = ⟨.ok ⟨some (.str (getOfflineResponse query taskType)), "offline", e, some qid,
            false⟩,
         (cacheSet cache now ("ai_query:" ++ qid)
            (.obj [("result", .str (getOfflineResponse query taskType)),
                   ("timestamp", .num now)]) cfg.cacheTTL).2,
         []⟩ := by
  rw [processQueryUncached_offline]
  have hcond : (cfg.cacheEnabled
      && jsTruthy (Json.str (getOfflineResponse query taskType))) = true := by
    rw [hen]
    simp [jsTruthy, getOfflineResponse_ne_empty query taskType]
  rw [if_pos hcond]

theorem processQueryUncached_error_iff (cfg : OrchConfig) (ms : ModelStatus)
    (ds phi : Except String String) (query taskType qid : String)
    (cache : CacheState) (now e : Nat) :
    hardErrorB (processQueryUncached cfg ms ds phi query taskType qid cache now e).outcome
      = (primaryThrewB cfg ms ds phi taskType && fallbackThrewB cfg ms ds phi taskType)
    ∧ ∀ msg,
        (processQueryUncached cfg ms ds phi query taskType qid cache now e).outcome
          = .error msg →
        ∃ e₁ e₂, msg = aggregateErrorMsg e₁ e₂
          ∧ ((ds = .error e₁ ∧ phi = .error e₂) ∨ (phi = .error e₁ ∧ ds = .error e₂)) := by
  unfold processQueryUncached handleProcessingError primaryThrewB fallbackThrewB
  set t := determineTargetModel cfg.taskRouting ms taskType with ht
  clear_value t
  by_cases h1 : t = "both"
  · subst h1
    constructor
    · simp [hardErrorB, Except.map]
    · intro msg hmsg
      simp [hardErrorB, Except.map] at hmsg
  · by_cases h2 : t = "deepseek"
    · subst h2
      rcases ds with eds | rds
      · rcases hpa : ms.phi3Available with _ | _
        · constructor
          · simp [hardErrorB, threwB, hpa, Except.map]
          · intro msg hmsg
            simp [hpa, Except.map] at hmsg
        · rcases phi with ephi | rphi
          · constructor
            · simp [hardErrorB, threwB, hpa, Except.map]
            · intro msg hmsg
              simp [hpa, Except.map] at hmsg
              exact ⟨eds, ephi, hmsg.symm, Or.inl ⟨rfl, rfl⟩⟩
          · constructor
            · simp [hardErrorB, threwB, hpa, Except.map]
            · intro msg hmsg
              simp [hpa, Except.map] at hmsg
      · constructor
        · simp [hardErrorB, threwB, Except.map]
        · intro msg hmsg
          simp [Except.map] at hmsg
    · by_cases h3 : t = "phi3"
      · subst h3
        rcases phi with ephi | rphi
        · rcases hda : ms.deepseekAvailable with _ | _
          · constructor
            · simp [hardErrorB, threwB, hda, Except.map]
            · intro msg hmsg
              simp [hda, Except.map] at hmsg
          · rcases ds with eds | rds
            · constructor
              · simp [hardErrorB, threwB, hda, Except.map]
              · intro msg hmsg
                simp [hda, Except.map] at hmsg
                exact ⟨ephi, eds, hmsg.symm, Or.inr ⟨rfl, rfl⟩⟩
            · constructor
              · simp [hardErrorB, threwB, hda, Except.map]
              · intro msg hmsg
                simp [hda, Except.map] at hmsg
        · constructor
          · simp [hardErrorB, threwB, Except.map]
          · intro msg hmsg
            simp [Except.map] at hmsg
      · have hb : (t == "both") = false := by simpa using h1
        have hd : (t == "deepseek") = false := by simpa using h2
        have hp : (t == "phi3") = false := by simpa using h3
        constructor
        · simp [hardErrorB, hb, hd, hp]
        · intro msg hmsg
          simp [hb, hd, hp] at hmsg

end Triton

namespace Triton

/-- C6: with both backends marked unavailable and no usable cache entry for
the fingerprint, `processQuery` deterministically returns, for every task
category and regardless of either backend oracle (no backend call is
dispatched — `calls = []`), exactly the canned message the static offline
table maps to that category, with source `offline`; a category present in
the table yields its exact entry, an absent category yields the generic
default. -/
theorem offline_determinism (cfg : OrchConfig) (ds phi : Except String String)
    (query : String) (context : Json) (taskType : String) (cache : CacheState)
    (now e : Nat)
    (hmiss : cacheHitB cfg cache now
      ("ai_query:" ++ generateQueryId query context taskType) = false) :
    (processQuery cfg ⟨false, false⟩ ds phi query context taskType cache now e).outcome
      = .ok ⟨some (.str (getOfflineResponse query taskType)), "offline", e,
          some (generateQueryId query context taskType), false⟩
    ∧ (processQuery cfg ⟨false, false⟩ ds phi query context taskType cache now e).calls
      = []
    ∧ (∀ r, offlineResponses.lookup taskType = some r →
        getOfflineResponse query taskType = r)
    ∧ (offlineResponses.lookup taskType = none →
        getOfflineResponse query taskType = offlineDefaultMsg) := by
  rw [processQuery_miss cfg ⟨false, false⟩ ds phi query context taskType cache now e hmiss]
  rw [processQueryUncached_offline]
  refine ⟨rfl, rfl, ?_, ?_⟩
  · intro r hr
    unfold getOfflineResponse
    rw [hr]
    simp [offline_lookup_ne_empty hr]
  · intro hr
    unfold getOfflineResponse
    rw [hr]

/-- Witness for C6: concrete offline call (`basicQueries`, empty cache). -/
theorem offline_determinism_witness :
    (processQuery aiConfigDefault ⟨false, false⟩ (.error "x") (.ok "y") "hello"
        (.obj ([] : List (String × Json))) "basicQueries" emptyCache 0 7).outcome
      = .ok ⟨some (.str (getOfflineResponse "hello" "basicQueries")), "offline", 7,
          some (generateQueryId "hello" (.obj ([] : List (String × Json))) "basicQueries"),
          false⟩
    ∧ (processQuery aiConfigDefault ⟨false, false⟩ (.error "x") (.ok "y") "hello"
        (.obj ([] : List (String × Json))) "basicQueries" emptyCache 0 7).calls = [] := by
  obtain ⟨h₁, h₂, _, _⟩ :=
    offline_determinism aiConfigDefault (.error "x") (.ok "y") "hello"
      (.obj ([] : List (String × Json))) "basicQueries" emptyCache 0 7 (by rfl)
  exact ⟨h₁, h₂⟩

/-- C4: `processQuery` throws if and only if the primary dispatch throws (a
single-backend target whose call errors, with no usable cache hit) and the
fallback handler invoked for that failure also throws (the opposite backend
is marked available and its call errors); in that case the single aggregated
error message is built from both underlying failure messages, and in every
other case the call returns a `QueryResult` (`Except.ok`). -/
theorem doubleFailure_only_hard_error (cfg : OrchConfig) (ms : ModelStatus)
    (ds phi : Except String String) (query : String) (context : Json)
    (taskType : String) (cache : CacheState) (now e : Nat) :
    hardErrorB (processQuery cfg ms ds phi query context taskType cache now e).outcome
      = (!cacheHitB cfg cache now ("ai_query:" ++ generateQueryId query context taskType)
         && primaryThrewB cfg ms ds phi taskType
         && fallbackThrewB cfg ms ds phi taskType)
    ∧ ∀ msg,
        (processQuery cfg ms ds phi query context taskType cache now e).outcome
          = .error msg →
        ∃ e₁ e₂, msg = aggregateErrorMsg e₁ e₂
          ∧ ((ds = .error e₁ ∧ phi = .error e₂) ∨ (phi = .error e₁ ∧ ds = .error e₂)) := by
  rcases hh : cacheHitB cfg cache now
      ("ai_query:" ++ generateQueryId query context taskType) with _ | _
  · rw [processQuery_miss cfg ms ds phi query context taskType cache now e hh]
    obtain ⟨h₁, h₂⟩ := processQueryUncached_error_iff cfg ms ds phi query taskType
      (generateQueryId query context taskType)
      (if cfg.cacheEnabled
       then (cacheGet cache now ("ai_query:" ++ generateQueryId query context taskType)).2
       else cache) now e
    exact ⟨by rw [h₁]; simp, h₂⟩
  · obtain ⟨cr, hcr, heq⟩ := processQuery_hit cfg ms ds phi query context taskType
      cache now e hh
    rw [heq]
    constructor
    · simp [hardErrorB]
    · intro msg hmsg
      simp [hardErrorB] at hmsg

/-- Witness for C4: a concrete double failure (`basicQueries` routes to the
local backend, which errors; the remote backend is available and its fallback
call errors too), whose aggregated message carries both failure texts. -/
theorem doubleFailure_only_hard_error_witness :
    ∃ e₁ e₂, aggregateErrorMsg "local down" "remote down" = aggregateErrorMsg e₁ e₂
      ∧ (((Except.error "remote down" : Except String String) = .error e₁
            ∧ (Except.error "local down" : Except String String) = .error e₂)
        ∨ ((Except.error "local down" : Except String String) = .error e₁
            ∧ (Except.error "remote down" : Except String String) = .error e₂)) :=
  (doubleFailure_only_hard_error ⟨aiConfigTaskRouting, false, 3600⟩ ⟨true, true⟩
    (.error "remote down") (.error "local down") "q" (.obj ([] : List (String × Json)))
    "basicQueries" emptyCache 0 5).2
    (aggregateErrorMsg "local down" "remote down") (by rfl)

end Triton

namespace Triton

/-- C9: offline responses are cached like backend successes: with caching
enabled, both backends down and a cold cache entry, `processQuery` writes the
canned offline text under the fingerprint key with the configured TTL
(visible in the cache state after the call), and a later identical call
strictly within the TTL returns that stale canned message with source
`cache` and no backend call — for every second-call availability state and
backend behavior, i.e. even once backends are available again. -/
theorem offline_response_cached_and_served (cfg : OrchConfig) (ms₂ : ModelStatus)
    (ds₁ phi₁ ds₂ phi₂ : Except String String) (query : String) (context : Json)
    (taskType : String) (cache : CacheState) (now₁ now₂ e₁ e₂ : Nat)
    (hen : cfg.cacheEnabled = true)
    (hnd₁ : keysNodup cache.memoryCache)
    (hnd₂ : keysNodup cache.memoryCacheExpiry)
    (hmiss : (cacheGet cache now₁
      ("ai_query:" ++ generateQueryId query context taskType)).1 = none)
    (httl : now₂ < now₁ + cfg.cacheTTL * 1000)
    (hparse : jsonParse (jsonStringify (.obj
        [("result", .str (getOfflineResponse query taskType)),
         ("timestamp", .num now₁)]))
      = some (.obj
        [("result", .str (getOfflineResponse query taskType)),
         ("timestamp", .num now₁)])) :
    (processQuery cfg ⟨false, false⟩ ds₁ phi₁ query context taskType cache now₁ e₁).outcome
      = .ok ⟨some (.str (getOfflineResponse query taskType)), "offline", e₁,
          some (generateQueryId query context taskType), false⟩
    ∧ ((processQuery cfg ⟨false, false⟩ ds₁ phi₁ query context taskType cache now₁
          e₁).cache.memoryCache.lookup
        ("ai_query:" ++ generateQueryId query context taskType)
      = some (jsonStringify (.obj
          [("result", .str (getOfflineResponse query taskType)),
           ("timestamp", .num now₁)])))
    ∧ ((processQuery cfg ⟨false, false⟩ ds₁ phi₁ query context taskType cache now₁
          e₁).cache.memoryCacheExpiry.lookup
        ("ai_query:" ++ generateQueryId query context taskType)
      = some (now₁ + cfg.cacheTTL * 1000))
    ∧ (processQuery cfg ms₂ ds₂ phi₂ query context taskType
        (processQuery cfg ⟨false, false⟩ ds₁ phi₁ query context taskType cache now₁
          e₁).cache now₂ e₂).outcome
      = .ok ⟨some (.str (getOfflineResponse query taskType)), "cache", e₂,
          some (generateQueryId query context taskType), false⟩
    ∧ (processQuery cfg ms₂ ds₂ phi₂ query context taskType
        (processQuery cfg ⟨false, false⟩ ds₁ phi₁ query context taskType cache now₁
          e₁).cache now₂ e₂).calls = [] := by
  have hhit₁ : cacheHitB cfg cache now₁
      ("ai_query:" ++ generateQueryId query context taskType) = false := by
    simp [cacheHitB, hmiss]
  rw [processQuery_miss cfg ⟨false, false⟩ ds₁ phi₁ query context taskType cache now₁
    e₁ hhit₁]
  rw [hen]
  rw [if_pos rfl]
  rw [processQueryUncached_offline_cached cfg ds₁ phi₁ query taskType
    (generateQueryId query context taskType)
    (cacheGet cache now₁ ("ai_query:" ++ generateQueryId query context taskType)).2
    now₁ e₁ hen]
  have hndc := cacheGet_nodup cache now₁
    ("ai_query:" ++ generateQueryId query context taskType) hnd₁ hnd₂
  obtain ⟨L₁, L₂⟩ := cacheSet_lookup
    (cacheGet cache now₁ ("ai_query:" ++ generateQueryId query context taskType)).2
    now₁ ("ai_query:" ++ generateQueryId query context taskType)
    (.obj [("result", .str (getOfflineResponse query taskType)),
           ("timestamp", .num now₁)]) cfg.cacheTTL hndc.2
  have hget₂ := cacheGet_live
    (cacheSet (cacheGet cache now₁
        ("ai_query:" ++ generateQueryId query context taskType)).2 now₁
      ("ai_query:" ++ generateQueryId query context taskType)
      (.obj [("result", .str (getOfflineResponse query taskType)),
             ("timestamp", .num now₁)]) cfg.cacheTTL).2
    now₂ ("ai_query:" ++ generateQueryId query context taskType) _ _ L₁ L₂
    (by omega) (by omega)
  have hhit₂ : cacheHitB cfg
      (cacheSet (cacheGet cache now₁
          ("ai_query:" ++ generateQueryId query context taskType)).2 now₁
        ("ai_query:" ++ generateQueryId query context taskType)
        (.obj [("result", .str (getOfflineResponse query taskType)),
               ("timestamp", .num now₁)]) cfg.cacheTTL).2
      now₂ ("ai_query:" ++ generateQueryId query context taskType) = true := by
    simp [cacheHitB, hen, hget₂, hparse, jsTruthy]
  obtain ⟨cr, hcr, heq⟩ := processQuery_hit cfg ms₂ ds₂ phi₂ query context taskType
    (cacheSet (cacheGet cache now₁
        ("ai_query:" ++ generateQueryId query context taskType)).2 now₁
      ("ai_query:" ++ generateQueryId query context taskType)
      (.obj [("result", .str (getOfflineResponse query taskType)),
             ("timestamp", .num now₁)]) cfg.cacheTTL).2 now₂ e₂ hhit₂
  have hcr₂ : cr = .obj [("result", .str (getOfflineResponse query taskType)),
      ("timestamp", .num now₁)] := by
    rw [hget₂, hparse] at hcr
    exact (Option.some_inj.mp hcr).symm
  rw [hcr₂] at heq
  rw [heq]
  exact ⟨rfl, L₁, L₂, rfl, rfl⟩

set_option maxRecDepth 8000 in
/-- Witness for C9: a concrete cold-cache offline call at 1000 ms followed by
the identical call at 2000 ms with both backends back up, served from cache. -/
theorem offline_response_cached_and_served_witness :
    (processQuery aiConfigDefault ⟨true, true⟩ (.ok "fresh remote") (.ok "fresh local")
        "hello" (.obj ([] : List (String × Json))) "basicQueries"
        (processQuery aiConfigDefault ⟨false, false⟩ (.error "down") (.error "down")
          "hello" (.obj ([] : List (String × Json))) "basicQueries" emptyCache 1000
          3).cache 2000 4).outcome
      = .ok ⟨some (.str (getOfflineResponse "hello" "basicQueries")), "cache", 4,
          some (generateQueryId "hello" (.obj ([] : List (String × Json)))
            "basicQueries"), false⟩ :=
  (offline_response_cached_and_served aiConfigDefault ⟨true, true⟩
    (.error "down") (.error "down") (.ok "fresh remote") (.ok "fresh local") "hello"
    (.obj ([] : List (String × Json))) "basicQueries" emptyCache 1000 2000 3 4
    rfl (by decide) (by decide) rfl (by decide) (by rfl)).2.2.2.1

end Triton
